import Mathlib

/-!
# Page decorator of `static/js/myjs.js`

A shallow embedding of the `window.onload` handler of `static/js/myjs.js`.

The handler reads `document.title`, adds two class tokens to `document.body`
when the title is one of five fixed strings, and then walks the elements
returned by `document.querySelectorAll(".menu__link")`, adding the token
`"new"` to those whose `innerText` is one of nineteen fixed strings.

Modelling choices.

* A class list is the ordered token set of a `DOMTokenList`, a `List String`.
  `classList.add(token)` follows the DOM standard: it throws `SyntaxError` on the
  empty token, `InvalidCharacterError` on a token holding ASCII whitespace, and
  otherwise appends the token unless the set already holds it.
* The state the handler touches is a `Window`: the document (title, body
  element, the elements selected by `.menu__link` in document order) and the
  list of `console.log` calls made so far.
* `document.body` is present. The handler is embedded at two levels. In
  `onload` the body and the elements selected by `.menu__link` are separate
  values: the body is not itself one of the selected elements (on the site these
  are the sidebar links), and the selected elements are pairwise distinct nodes,
  so the node list is a list of values. In `Page.onload` the elements are nodes
  with an identity, `Page.querySelectorAll` computes the selection from the
  class lists, and the body is selected when it carries the class; the two
  levels agree on the selected elements when the body is not one of them.
* JavaScript strings are Lean strings. `toLowerCase` is the ASCII lowering; the
  handler applies it only to a title that has just been found equal to one of
  five ASCII literals, where it agrees with ECMAScript.
-/

namespace MyJs

/-- Exceptions that `DOMTokenList.add` throws. -/
inductive DOMException where
  | SyntaxError
  | InvalidCharacterError
  deriving DecidableEq, Repr

/-- ASCII whitespace of the DOM standard: TAB, LF, FF, CR and SPACE. -/
def isAsciiWhitespace (c : Char) : Bool :=
  c == '\t' || c == '\n' || c == Char.ofNat 12 || c == '\r' || c == ' '

/-- The ordered-set append of the DOM standard: nothing happens when the set
already holds the item. -/
def orderedSetAppend (tokens : List String) (token : String) : List String :=
  if token ∈ tokens then tokens else tokens ++ [token]

/-- The token set of a `DOMTokenList`. -/
abbrev ClassList := List String

/-- The method `classList.add(token)` with one argument: validation of the
token, then the ordered-set append. -/
def ClassList.add (classList : ClassList) (token : String) : Except DOMException ClassList :=
  if token = "" then Except.error DOMException.SyntaxError
  else if token.data.any isAsciiWhitespace then Except.error DOMException.InvalidCharacterError
  else Except.ok (orderedSetAppend classList token)

/-- An element, as far as the handler looks at it. -/
structure Element where
  innerText : String
  classList : ClassList
  deriving DecidableEq, Repr

/-- The document: its title, its body, and the static node list that
`document.querySelectorAll(".menu__link")` returns. -/
structure Document where
  title : String
  body : Element
  menuLinks : List Element
  deriving DecidableEq, Repr

/-- The global object: the document and the arguments of every `console.log`
call so far, oldest first. -/
structure Window where
  document : Document
  console : List (List String)
  deriving DecidableEq, Repr

/-- The method `String.prototype.toLowerCase`, on ASCII. -/
def toLowerCase (s : String) : String :=
  ⟨s.data.map Char.toLower⟩

/-- The call `s.replace(/ /g, "-")`: every space becomes a hyphen. -/
def replaceSpaces (s : String) : String :=
  ⟨s.data.map fun c => if c = ' ' then '-' else c⟩

/-- The expression `pageTitle.toLowerCase().replace(/ /g, "-")` of line 15. -/
def pageTitleClass (pageTitle : String) : String :=
  replaceSpaces (toLowerCase pageTitle)

/-- The arrow function passed to `navItems.forEach` (lines 23 to 47). -/
def navItemCallback (item : Element) : Except DOMException Element :=
  if item.innerText = "Quickstart" ∨
      item.innerText = "Quickstarts" ∨
      item.innerText = "Reference docs" ∨
      item.innerText = "Example apps" ∨
      item.innerText = "Overview" ∨
      item.innerText = "Content Types" ∨
      item.innerText = "Custom Content Types" ∨
      item.innerText = "Get featured" ∨
      item.innerText = "Launch your app" ∨
      item.innerText = "Debug & Test" ∨
      item.innerText = "Spam Filters" ∨
      item.innerText = "Custom content type" ∨
      item.innerText = "Query addresses" ∨
      item.innerText = "Scale" ∨
      item.innerText = "Reply" ∨
      item.innerText = "Attachment" ∨
      item.innerText = "Reaction" ∨
      item.innerText = "Read Receipt" ∨
      item.innerText = "Custom Content-Type" then do
    let classList ← ClassList.add item.classList "new"
    pure { item with classList := classList }
  else
    pure item

/-- The method `NodeList.prototype.forEach`: the callback runs on each element in
order, and an exception ends the walk. -/
def forEach (callback : Element → Except DOMException Element) :
    List Element → Except DOMException (List Element)
  | [] => pure []
  | item :: rest => do
    let item ← callback item
    let rest ← forEach callback rest
    pure (item :: rest)

/-- The handler assigned to `window.onload` (lines 1 to 48). -/
def onload (window : Window) : Except DOMException Window := do
  let navItems := window.document.menuLinks
  let pageTitle := window.document.title
  let window ←
    if pageTitle = "Quickstart" ∨
        pageTitle = "Local-first cache" ∨
        pageTitle = "Content Types" ∨
        pageTitle = "Marketing" ∨
        pageTitle = "Interactive tutorial" then do
      let pageTitleClass := pageTitleClass pageTitle
      let console := window.console ++ [["special-page", pageTitleClass]]
      let classList ← ClassList.add window.document.body.classList "special-page"
      let classList ← ClassList.add classList pageTitleClass
      pure { console := console,
             document := { window.document with
               body := { window.document.body with classList := classList } } }
    else
      pure window
  let navItems ← forEach navItemCallback navItems
  pure { window with document := { window.document with menuLinks := navItems } }

/-- The special-title set of the specification. -/
def specialTitles : List String :=
  ["Quickstart", "Local-first cache", "Content Types", "Marketing", "Interactive tutorial"]

/-- The five slugs the specification names. -/
def slugs : List String :=
  ["quickstart", "local-first-cache", "content-types", "marketing", "interactive-tutorial"]

/-- The nav-label set of the specification. -/
def navLabels : List String :=
  ["Quickstart", "Quickstarts", "Reference docs", "Example apps", "Overview",
   "Content Types", "Custom Content Types", "Get featured", "Launch your app",
   "Debug & Test", "Spam Filters", "Custom content type", "Query addresses", "Scale",
   "Reply", "Attachment", "Reaction", "Read Receipt", "Custom Content-Type"]

/-- What the callback leaves of an element: the pure reading of
`navItemCallback`, used to describe the result of a whole walk. -/
def marked (item : Element) : Element :=
  if item.innerText ∈ navLabels then
    { item with classList := orderedSetAppend item.classList "new" }
  else item

/-- The body class list the handler leaves, as a function of the title and of
the class list before. -/
def taggedBody (pageTitle : String) (classList : ClassList) : ClassList :=
  if pageTitle ∈ specialTitles then
    orderedSetAppend (orderedSetAppend classList "special-page") (pageTitleClass pageTitle)
  else classList

/-- The console the handler leaves. -/
def loggedConsole (pageTitle : String) (console : List (List String)) : List (List String) :=
  if pageTitle ∈ specialTitles then
    console ++ [["special-page", pageTitleClass pageTitle]]
  else console

/-! ## The handler on nodes

The definitions above take the body and the selected elements as separate
values. Below, the same handler runs on a page whose elements are nodes with
an identity, so that `document.querySelectorAll(".menu__link")` may return
`document.body` itself when the body carries the class. -/

/-- A reference to an element of the page: `document.body`, or the element at a
given place among the other elements. -/
inductive Node where
  | body
  | other (i : Nat)
  deriving DecidableEq, Repr

/-- A page at node level: the title, the body, the other elements of the
document in tree order, how many of them come before the body in tree order,
and the `console.log` calls so far. -/
structure Page where
  title : String
  body : Element
  others : List Element
  bodyPosition : Nat
  console : List (List String)
  deriving DecidableEq, Repr

/-- Matching of an element against the class selector `.menu__link`. -/
def matchesMenuLink (element : Element) : Bool :=
  decide ("menu__link" ∈ element.classList)

/-- The call `document.querySelectorAll(".menu__link")`: the static list of the
matching elements, the body among them when it matches, in tree order. -/
def Page.querySelectorAll (page : Page) : List Node :=
  let selected := (List.range page.others.length).filter fun i =>
    match page.others[i]? with
    | some element => matchesMenuLink element
    | none => false
  (selected.filter fun i => decide (i < page.bodyPosition)).map Node.other
    ++ (if matchesMenuLink page.body then [Node.body] else [])
    ++ (selected.filter fun i => decide (page.bodyPosition ≤ i)).map Node.other

/-- The element a reference points to. -/
def Page.get? (page : Page) : Node → Option Element
  | Node.body => some page.body
  | Node.other i => page.others[i]?

/-- The page after an in-place change of the element a reference points to. -/
def Page.set (page : Page) : Node → Element → Page
  | Node.body, element => { page with body := element }
  | Node.other i, element => { page with others := page.others.set i element }

/-- The method `NodeList.prototype.forEach` on references: the callback runs on
the current state of each referenced element, in order, and changes it in
place. -/
def forEachNode (callback : Element → Except DOMException Element) :
    List Node → Page → Except DOMException Page
  | [], page => pure page
  | node :: rest, page =>
    match page.get? node with
    | none => forEachNode callback rest page
    | some item => do
      let item ← callback item
      forEachNode callback rest (page.set node item)

/-- The handler assigned to `window.onload` (lines 1 to 48), on nodes. -/
def Page.onload (page : Page) : Except DOMException Page := do
  let navItems := page.querySelectorAll
  let pageTitle := page.title
  let page ←
    if pageTitle = "Quickstart" ∨
        pageTitle = "Local-first cache" ∨
        pageTitle = "Content Types" ∨
        pageTitle = "Marketing" ∨
        pageTitle = "Interactive tutorial" then do
      let pageTitleClass := pageTitleClass pageTitle
      let console := page.console ++ [["special-page", pageTitleClass]]
      let classList ← ClassList.add page.body.classList "special-page"
      let classList ← ClassList.add classList pageTitleClass
      pure { page with console := console, body := { page.body with classList := classList } }
    else
      pure page
  forEachNode navItemCallback navItems page

/-- The element the scan leaves, given whether a reference to it is in the node
list. -/
def markedIf (selected : Bool) (item : Element) : Element :=
  if selected then marked item else item

/-- The page a walk over the given references leaves: the pure reading of
`forEachNode navItemCallback`. -/
def markAll : List Node → Page → Page
  | [], page => page
  | node :: rest, page =>
    match page.get? node with
    | none => markAll rest page
    | some item => markAll rest (page.set node (marked item))

/-! ## Lemmas -/

theorem classList_add_ok (classList : ClassList) (token : String)
    (h₁ : token ≠ "") (h₂ : token.data.any isAsciiWhitespace = false) :
    ClassList.add classList token = Except.ok (orderedSetAppend classList token) := by
  simp [ClassList.add, h₁, h₂]

theorem classList_add_new (classList : ClassList) :
    ClassList.add classList "new" = Except.ok (orderedSetAppend classList "new") :=
  classList_add_ok classList "new" (by decide) (by decide)

theorem classList_add_special_page (classList : ClassList) :
    ClassList.add classList "special-page"
      = Except.ok (orderedSetAppend classList "special-page") :=
  classList_add_ok classList "special-page" (by decide) (by decide)

theorem pageTitleClass_valid (pageTitle : String) (h : pageTitle ∈ specialTitles) :
    pageTitleClass pageTitle ≠ "" ∧
      (pageTitleClass pageTitle).data.any isAsciiWhitespace = false := by
  simp only [specialTitles, List.mem_cons, List.mem_singleton, List.not_mem_nil, or_false] at h
  rcases h with h | h | h | h | h <;> subst h <;> decide

theorem navItemCallback_eq (item : Element) :
    navItemCallback item = Except.ok (marked item) := by
  unfold navItemCallback marked
  by_cases h : item.innerText ∈ navLabels
  · rw [if_pos h, if_pos (by simpa [navLabels] using h), classList_add_new]
    rfl
  · rw [if_neg h, if_neg (by simpa [navLabels] using h)]
    rfl

theorem forEach_navItemCallback (navItems : List Element) :
    forEach navItemCallback navItems = Except.ok (navItems.map marked) := by
  induction navItems with
  | nil => rfl
  | cons item rest ih =>
    simp only [forEach, navItemCallback_eq, ih, List.map_cons]
    rfl

theorem onload_eq (window : Window) :
    onload window = Except.ok
      { console := loggedConsole window.document.title window.console,
        document :=
          { title := window.document.title,
            body := { window.document.body with
              classList := taggedBody window.document.title window.document.body.classList },
            menuLinks := window.document.menuLinks.map marked } } := by
  unfold onload taggedBody loggedConsole
  by_cases h : window.document.title ∈ specialTitles
  · obtain ⟨h₁, h₂⟩ := pageTitleClass_valid _ h
    simp only [if_pos h]
    rw [if_pos (by simpa [specialTitles] using h)]
    simp only [classList_add_special_page, classList_add_ok _ _ h₁ h₂,
      forEach_navItemCallback]
    rfl
  · simp only [if_neg h]
    rw [if_neg (by simpa [specialTitles] using h)]
    simp only [forEach_navItemCallback]
    rfl

theorem mem_orderedSetAppend (tokens : List String) (token t : String) :
    t ∈ orderedSetAppend tokens token ↔ t ∈ tokens ∨ t = token := by
  unfold orderedSetAppend
  by_cases h : token ∈ tokens
  · rw [if_pos h]
    constructor
    · exact Or.inl
    · rintro (h' | h')
      · exact h'
      · exact h' ▸ h
  · rw [if_neg h]
    simp

theorem orderedSetAppend_idem (tokens : List String) (token : String) :
    orderedSetAppend (orderedSetAppend tokens token) token = orderedSetAppend tokens token := by
  have h : token ∈ orderedSetAppend tokens token :=
    (mem_orderedSetAppend tokens token token).2 (Or.inr rfl)
  rw [orderedSetAppend.eq_1 (orderedSetAppend tokens token), if_pos h]

theorem marked_innerText (item : Element) : (marked item).innerText = item.innerText := by
  unfold marked
  split <;> rfl

theorem marked_classList (item : Element) :
    (marked item).classList =
      if item.innerText ∈ navLabels then orderedSetAppend item.classList "new"
      else item.classList := by
  unfold marked
  split <;> rfl

theorem marked_idem (item : Element) : marked (marked item) = marked item := by
  by_cases h : item.innerText ∈ navLabels
  · have h₁ : marked item
        = { item with classList := orderedSetAppend item.classList "new" } := by
      unfold marked
      rw [if_pos h]
    rw [h₁]
    unfold marked
    simp only [if_pos h, orderedSetAppend_idem]
  · have h₁ : marked item = item := by
      unfold marked
      rw [if_neg h]
    rw [h₁, h₁]

theorem pageTitleClass_mem_slugs (pageTitle : String) (h : pageTitle ∈ specialTitles) :
    pageTitleClass pageTitle ∈ slugs := by
  simp only [specialTitles, List.mem_cons, List.mem_singleton, List.not_mem_nil, or_false] at h
  rcases h with h | h | h | h | h <;> subst h <;> decide

/-! ## Body tagging -/

/-- C1: for every title T of the special-title set, the handler run on a document
titled T returns, and the body class list it leaves holds exactly the tokens
held before together with "special-page" and the slug of T, the slug being T
lowercased with every space replaced by a hyphen; from the empty class list
the result is the list of "special-page" and the slug; the five slugs are
"quickstart", "local-first-cache", "content-types", "marketing" and
"interactive-tutorial". -/
theorem C1_special_title_tags_body :
    (∀ (T : String) (body : Element) (menuLinks : List Element)
        (console : List (List String)), T ∈ specialTitles →
        ∃ window', onload ⟨⟨T, body, menuLinks⟩, console⟩ = Except.ok window' ∧
          (∀ token, token ∈ window'.document.body.classList ↔
            token ∈ body.classList ∨ token = "special-page" ∨ token = pageTitleClass T) ∧
          (body.classList = [] →
            window'.document.body.classList = ["special-page", pageTitleClass T]) ∧
          pageTitleClass T = replaceSpaces (toLowerCase T)) ∧
      specialTitles.map pageTitleClass = slugs ∧
      slugs = ["quickstart", "local-first-cache", "content-types", "marketing",
        "interactive-tutorial"] := by
  refine ⟨?_, by decide, rfl⟩
  intro T body menuLinks console hT
  refine ⟨_, onload_eq _, ?_, ?_, rfl⟩
  · intro token
    simp only [taggedBody, if_pos hT, mem_orderedSetAppend, or_assoc]
  · intro hb
    have hne : pageTitleClass T ≠ "special-page" := by
      simp only [specialTitles, List.mem_cons, List.mem_singleton, List.not_mem_nil,
        or_false] at hT
      rcases hT with h | h | h | h | h <;> subst h <;> decide
    simp only [taggedBody, if_pos hT, hb]
    simp [orderedSetAppend, hne]

/-- The statement of C1 at the title "Interactive tutorial" and an empty body class list. -/
theorem C1_special_title_tags_body_witness :
    "Interactive tutorial" ∈ specialTitles ∧
      ∃ window', onload ⟨⟨"Interactive tutorial", ⟨"", []⟩, []⟩, []⟩ = Except.ok window' ∧
        (∀ token, token ∈ window'.document.body.classList ↔
          token ∈ ([] : List String) ∨ token = "special-page" ∨
            token = pageTitleClass "Interactive tutorial") ∧
        (([] : List String) = [] →
          window'.document.body.classList
            = ["special-page", pageTitleClass "Interactive tutorial"]) ∧
        pageTitleClass "Interactive tutorial"
          = replaceSpaces (toLowerCase "Interactive tutorial") :=
  ⟨by decide,
    C1_special_title_tags_body.1 "Interactive tutorial" ⟨"", []⟩ [] [] (by decide)⟩

/-- C2: for every title that is not one of the five special titles, compared
exactly, the handler returns and leaves the body as it was; "FAQ",
"quickstart", "Quickstart " and "Content types" are such titles. -/
theorem C2_other_title_keeps_body :
    (∀ (T : String) (body : Element) (menuLinks : List Element)
        (console : List (List String)), T ∉ specialTitles →
        ∃ window', onload ⟨⟨T, body, menuLinks⟩, console⟩ = Except.ok window' ∧
          window'.document.body.classList = body.classList ∧
          window'.document.body = body) ∧
      "FAQ" ∉ specialTitles ∧ "quickstart" ∉ specialTitles ∧
      "Quickstart " ∉ specialTitles ∧ "Content types" ∉ specialTitles := by
  refine ⟨?_, by decide, by decide, by decide, by decide⟩
  intro T body menuLinks console hT
  refine ⟨_, onload_eq _, ?_, ?_⟩
  · simp only [taggedBody, if_neg hT]
  · simp only [taggedBody, if_neg hT]

/-- The statement of C2 at the title "Quickstart " (trailing space) with one navigation item. -/
theorem C2_other_title_keeps_body_witness :
    "Quickstart " ∉ specialTitles ∧
      ∃ window', onload ⟨⟨"Quickstart ", ⟨"page", ["docs"]⟩, [⟨"Reply", []⟩]⟩, []⟩
          = Except.ok window' ∧
        window'.document.body.classList = ["docs"] ∧
        window'.document.body = ⟨"page", ["docs"]⟩ :=
  ⟨by decide,
    C2_other_title_keeps_body.1 "Quickstart " ⟨"page", ["docs"]⟩ [⟨"Reply", []⟩] []
      (by decide)⟩

/-- C5: for every title the body tagging adds either nothing or the marker
"special-page" followed by exactly one of the five slugs, whatever the body
held before: the tokens added are those the handler leaves on an empty class
list, the marker is among them if and only if a slug is, and at most one slug
is. -/
theorem C5_marker_iff_one_slug (pageTitle : String) :
    ∃ added : List String,
      (added = [] ∨ ∃ s ∈ slugs, added = ["special-page", s]) ∧
      ("special-page" ∈ added ↔ ∃ s ∈ slugs, s ∈ added) ∧
      (added.filter fun token => decide (token ∈ slugs)).length ≤ 1 ∧
      (∀ (innerText : String) (menuLinks : List Element) (console : List (List String)),
        ∃ window', onload ⟨⟨pageTitle, ⟨innerText, []⟩, menuLinks⟩, console⟩
            = Except.ok window' ∧
          window'.document.body.classList = added) ∧
      ∀ (body : Element) (menuLinks : List Element) (console : List (List String)),
        ∃ window', onload ⟨⟨pageTitle, body, menuLinks⟩, console⟩ = Except.ok window' ∧
          window'.document.body.classList = added.foldl orderedSetAppend body.classList := by
  by_cases hT : pageTitle ∈ specialTitles
  · have hs := pageTitleClass_mem_slugs pageTitle hT
    have hne : ∀ s ∈ slugs, s ≠ "special-page" := by decide
    have hcount : ∀ s ∈ slugs,
        (["special-page", s].filter fun token => decide (token ∈ slugs)).length ≤ 1 := by
      decide
    refine ⟨["special-page", pageTitleClass pageTitle], Or.inr ⟨_, hs, rfl⟩, ?_, hcount _ hs,
      ?_, ?_⟩
    · constructor
      · intro _
        exact ⟨_, hs, by simp⟩
      · intro _
        simp
    · intro innerText menuLinks console
      refine ⟨_, onload_eq _, ?_⟩
      simp only [taggedBody, if_pos hT]
      simp [orderedSetAppend, hne _ hs]
    · intro body menuLinks console
      refine ⟨_, onload_eq _, ?_⟩
      simp only [taggedBody, if_pos hT, List.foldl_cons, List.foldl_nil]
  · refine ⟨[], Or.inl rfl, ?_, by simp, ?_, ?_⟩
    · simp
    · intro innerText menuLinks console
      refine ⟨_, onload_eq _, ?_⟩
      simp only [taggedBody, if_neg hT]
    · intro body menuLinks console
      refine ⟨_, onload_eq _, ?_⟩
      simp only [taggedBody, if_neg hT, List.foldl_nil]

/-! ## Navigation scan -/

/-- C3: for every collection of navigation items and every item in it, the scan
(alone, and as part of the handler under any title) returns a collection of the
same length in which the item keeps its text; when the text is one of the 19
nav labels the class list afterwards contains "new" and is otherwise as
before (unchanged when it held "new", extended by "new" at the end when it did
not); when the text is no nav label, such as "Other Page", the class list is
unchanged. -/
theorem C3_nav_label_gets_new (navItems : List Element) (i : Nat) (item : Element)
    (h : navItems[i]? = some item) (title : String) (body : Element)
    (console : List (List String)) :
    ∃ scanned window' item',
      forEach navItemCallback navItems = Except.ok scanned ∧
      onload ⟨⟨title, body, navItems⟩, console⟩ = Except.ok window' ∧
      window'.document.menuLinks = scanned ∧
      scanned.length = navItems.length ∧
      scanned[i]? = some item' ∧
      item'.innerText = item.innerText ∧
      (item.innerText ∈ navLabels →
        "new" ∈ item'.classList ∧
        (∀ token, token ≠ "new" → (token ∈ item'.classList ↔ token ∈ item.classList)) ∧
        item'.classList
          = if "new" ∈ item.classList then item.classList else item.classList ++ ["new"]) ∧
      (item.innerText ∉ navLabels → item'.classList = item.classList) ∧
      navLabels.length = 19 ∧ "Reply" ∈ navLabels ∧ "Other Page" ∉ navLabels := by
  refine ⟨_, _, marked item, forEach_navItemCallback _, onload_eq _, rfl, by simp, ?_,
    marked_innerText _, ?_, ?_, by decide, by decide, by decide⟩
  · simp [List.getElem?_map, h]
  · intro hl
    rw [marked_classList, if_pos hl]
    refine ⟨(mem_orderedSetAppend _ _ _).2 (Or.inr rfl), ?_, rfl⟩
    intro token hne
    rw [mem_orderedSetAppend]
    simp [hne]
  · intro hl
    rw [marked_classList, if_neg hl]

/-- The statement of C3 at the first of the two items "Reply" and "Other Page". -/
theorem C3_nav_label_gets_new_witness :
    ([⟨"Reply", ["menu__link"]⟩, ⟨"Other Page", ["menu__link"]⟩] : List Element)[0]?
        = some ⟨"Reply", ["menu__link"]⟩ ∧
      ∃ scanned window' item',
        forEach navItemCallback [⟨"Reply", ["menu__link"]⟩, ⟨"Other Page", ["menu__link"]⟩]
          = Except.ok scanned ∧
        onload ⟨⟨"FAQ", ⟨"", []⟩,
            [⟨"Reply", ["menu__link"]⟩, ⟨"Other Page", ["menu__link"]⟩]⟩, []⟩
          = Except.ok window' ∧
        window'.document.menuLinks = scanned ∧
        scanned.length
          = ([⟨"Reply", ["menu__link"]⟩, ⟨"Other Page", ["menu__link"]⟩] : List Element).length ∧
        scanned[0]? = some item' ∧
        item'.innerText = "Reply" ∧
        ("Reply" ∈ navLabels →
          "new" ∈ item'.classList ∧
          (∀ token, token ≠ "new" → (token ∈ item'.classList ↔ token ∈ ["menu__link"])) ∧
          item'.classList
            = if "new" ∈ ["menu__link"] then ["menu__link"] else ["menu__link"] ++ ["new"]) ∧
        ("Reply" ∉ navLabels → item'.classList = ["menu__link"]) ∧
        navLabels.length = 19 ∧ "Reply" ∈ navLabels ∧ "Other Page" ∉ navLabels :=
  ⟨rfl,
    C3_nav_label_gets_new [⟨"Reply", ["menu__link"]⟩, ⟨"Other Page", ["menu__link"]⟩] 0
      ⟨"Reply", ["menu__link"]⟩ rfl "FAQ" ⟨"", []⟩ []⟩

/-- C4: the navigation scan is idempotent: for every collection of navigation
items with arbitrary class lists the scan returns, and scanning its result
again returns that same result, so every item has the same tokens after two
scans as after one; likewise a second run of the whole handler leaves the
navigation items (and the whole document) as the first run left them. -/
theorem C4_nav_scan_idempotent :
    (∀ navItems : List Element, ∃ once twice,
      forEach navItemCallback navItems = Except.ok once ∧
      forEach navItemCallback once = Except.ok twice ∧
      twice = once ∧
      List.Forall₂ (fun a b => ∀ token, token ∈ a.classList ↔ token ∈ b.classList)
        once twice) ∧
    ∀ window : Window, ∃ once twice,
      onload window = Except.ok once ∧ onload once = Except.ok twice ∧
      twice.document.menuLinks = once.document.menuLinks ∧
      twice.document = once.document := by
  have hmap : ∀ navItems : List Element,
      (navItems.map marked).map marked = navItems.map marked := by
    intro navItems
    rw [List.map_map]
    exact List.map_congr_left fun item _ => marked_idem item
  constructor
  · intro navItems
    refine ⟨_, _, forEach_navItemCallback _, forEach_navItemCallback _, hmap _, ?_⟩
    rw [hmap]
    exact List.forall₂_same.2 fun _ _ _ => Iff.rfl
  · intro window
    refine ⟨_, _, onload_eq _, onload_eq _, ?_, ?_⟩
    · exact hmap _
    · simp only [hmap]
      by_cases hT : window.document.title ∈ specialTitles
      · simp only [taggedBody, if_pos hT, orderedSetAppend_idem]
        have hm : "special-page" ∈ orderedSetAppend
            (orderedSetAppend window.document.body.classList "special-page")
            (pageTitleClass window.document.title) :=
          (mem_orderedSetAppend _ _ _).2
            (Or.inl ((mem_orderedSetAppend _ _ _).2 (Or.inr rfl)))
        rw [orderedSetAppend.eq_1 (orderedSetAppend (orderedSetAppend _ _) _) "special-page",
          if_pos hm, orderedSetAppend_idem]
      · simp only [taggedBody, if_neg hT]

/-- C6: the result of the navigation scan does not depend on the order of
evaluation: there is a function of an item's own text and class list that
gives its class list after the scan, whatever the other items are; and for
every family of n items and every permutation of its indices, scanning the
permuted list returns the permuted result of scanning the original list, so
each item ends with the same class list in either order. -/
theorem C6_nav_scan_order_independent :
    ∃ final : String → ClassList → ClassList,
      (∀ navItems : List Element,
        forEach navItemCallback navItems
          = Except.ok (navItems.map fun item =>
              ⟨item.innerText, final item.innerText item.classList⟩)) ∧
      (∀ window : Window, ∃ window', onload window = Except.ok window' ∧
        window'.document.menuLinks
          = window.document.menuLinks.map fun item =>
              ⟨item.innerText, final item.innerText item.classList⟩) ∧
      ∀ (n : Nat) (items : Fin n → Element) (σ : Equiv.Perm (Fin n)),
        forEach navItemCallback (List.ofFn items)
            = Except.ok (List.ofFn fun j =>
                (⟨(items j).innerText, final (items j).innerText (items j).classList⟩ :
                  Element)) ∧
          forEach navItemCallback (List.ofFn fun j => items (σ j))
            = Except.ok (List.ofFn fun j =>
                (⟨(items (σ j)).innerText,
                  final (items (σ j)).innerText (items (σ j)).classList⟩ : Element)) := by
  have hm : ∀ item : Element,
      marked item = ⟨item.innerText,
        if item.innerText ∈ navLabels then orderedSetAppend item.classList "new"
        else item.classList⟩ := by
    intro item
    unfold marked
    split <;> rfl
  have hfun : marked = fun item : Element => (⟨item.innerText,
      if item.innerText ∈ navLabels then orderedSetAppend item.classList "new"
      else item.classList⟩ : Element) := funext hm
  refine ⟨fun text classList =>
    if text ∈ navLabels then orderedSetAppend classList "new" else classList, ?_, ?_, ?_⟩
  · intro navItems
    rw [forEach_navItemCallback, hfun]
  · intro window
    refine ⟨_, onload_eq _, ?_⟩
    simp only [hfun]
  · intro n items σ
    constructor
    · rw [forEach_navItemCallback, List.map_ofFn, hfun]
      rfl
    · rw [forEach_navItemCallback, List.map_ofFn, hfun]
      rfl

/-! ## Console, frame and safety -/

/-- C7 (as stated, refuted): on the title "Quickstart" the one message the
handler logs is the pair "special-page", "quickstart", which is not the pair
of the title and the slug. -/
theorem C7_title_not_logged :
    "Quickstart" ∈ specialTitles ∧
      ∃ window', onload ⟨⟨"Quickstart", ⟨"", []⟩, []⟩, []⟩ = Except.ok window' ∧
        window'.console = [["special-page", "quickstart"]] ∧
        window'.console ≠ [] ++ [["Quickstart", pageTitleClass "Quickstart"]] :=
  ⟨by decide, _, onload_eq _, by decide, by decide⟩

/-- C7 (amended): for every title T of the special-title set the handler logs
exactly one message, whose content is the fixed marker "special-page" followed
by the slug of T; for every other title it logs nothing. -/
theorem C7_marker_and_slug_logged (T : String) (body : Element) (menuLinks : List Element)
    (console : List (List String)) :
    ∃ window', onload ⟨⟨T, body, menuLinks⟩, console⟩ = Except.ok window' ∧
      (T ∈ specialTitles →
        window'.console = console ++ [["special-page", pageTitleClass T]]) ∧
      (T ∉ specialTitles → window'.console = console) := by
  refine ⟨_, onload_eq _, ?_, ?_⟩
  · intro hT
    simp only [loggedConsole, if_pos hT]
  · intro hT
    simp only [loggedConsole, if_neg hT]

/-- The amended statement of C7 at the title "Content Types" with one earlier message. -/
theorem C7_marker_and_slug_logged_witness :
    ∃ window', onload ⟨⟨"Content Types", ⟨"", ["docs"]⟩, []⟩, [["earlier"]]⟩
        = Except.ok window' ∧
      ("Content Types" ∈ specialTitles →
        window'.console
          = [["earlier"]] ++ [["special-page", pageTitleClass "Content Types"]]) ∧
      ("Content Types" ∉ specialTitles → window'.console = [["earlier"]]) :=
  C7_marker_and_slug_logged "Content Types" ⟨"", ["docs"]⟩ [] [["earlier"]]

/-- C8: the handler only adds class tokens: for every window it returns, the
title and the texts are kept, every token of the body is still on the body and
a token new on the body is "special-page" or one of the five slugs, and the
navigation items correspond one to one to the initial ones, each keeping its
tokens and gaining at most "new". -/
theorem C8_only_adds_tokens (window : Window) :
    ∃ window', onload window = Except.ok window' ∧
      window'.document.title = window.document.title ∧
      window'.document.body.innerText = window.document.body.innerText ∧
      (∀ token ∈ window.document.body.classList,
        token ∈ window'.document.body.classList) ∧
      (∀ token ∈ window'.document.body.classList,
        token ∈ window.document.body.classList ∨ token = "special-page" ∨ token ∈ slugs) ∧
      List.Forall₂
        (fun item item' : Element =>
          item'.innerText = item.innerText ∧
          (∀ token ∈ item.classList, token ∈ item'.classList) ∧
          ∀ token ∈ item'.classList, token ∈ item.classList ∨ token = "new")
        window.document.menuLinks window'.document.menuLinks := by
  refine ⟨_, onload_eq _, rfl, rfl, ?_, ?_, ?_⟩
  · intro token ht
    show token ∈ taggedBody _ _
    unfold taggedBody
    split
    · exact (mem_orderedSetAppend _ _ _).2 (Or.inl ((mem_orderedSetAppend _ _ _).2 (Or.inl ht)))
    · exact ht
  · intro token ht
    change token ∈ taggedBody _ _ at ht
    unfold taggedBody at ht
    split at ht
    · rename_i hT
      rcases (mem_orderedSetAppend _ _ _).1 ht with h | h
      · rcases (mem_orderedSetAppend _ _ _).1 h with h | h
        · exact Or.inl h
        · exact Or.inr (Or.inl h)
      · exact Or.inr (Or.inr (h ▸ pageTitleClass_mem_slugs _ hT))
    · exact Or.inl ht
  · show List.Forall₂ _ window.document.menuLinks (window.document.menuLinks.map marked)
    rw [List.forall₂_map_right_iff, List.forall₂_same]
    intro item _
    refine ⟨marked_innerText _, ?_, ?_⟩
    · intro token ht
      rw [marked_classList]
      split
      · exact (mem_orderedSetAppend _ _ _).2 (Or.inl ht)
      · exact ht
    · intro token ht
      rw [marked_classList] at ht
      split at ht
      · exact (mem_orderedSetAppend _ _ _).1 ht
      · exact Or.inl ht

/-- C9: for every title T of the special-title set the slug is a valid class
token: it is not empty, holds no whitespace and no uppercase letter, and
consists of the letters a to z and the hyphen only, so adding it to any class
list returns; and the handler returns on every window, it has no failing
path. -/
theorem C9_slug_is_valid_token :
    (∀ T ∈ specialTitles,
      pageTitleClass T ≠ "" ∧
      (∀ c ∈ (pageTitleClass T).data,
        isAsciiWhitespace c = false ∧ c.isWhitespace = false ∧ c.isUpper = false ∧
          (c.isLower = true ∨ c = '-')) ∧
      ∀ classList : ClassList, ∃ classList',
        ClassList.add classList (pageTitleClass T) = Except.ok classList') ∧
    ∀ window : Window, ∃ window', onload window = Except.ok window' := by
  constructor
  · intro T hT
    refine ⟨(pageTitleClass_valid T hT).1, ?_, ?_⟩
    · simp only [specialTitles, List.mem_cons, List.mem_singleton, List.not_mem_nil,
        or_false] at hT
      rcases hT with h | h | h | h | h <;> subst h <;> decide
    · intro classList
      exact ⟨_, classList_add_ok _ _ (pageTitleClass_valid T hT).1 (pageTitleClass_valid T hT).2⟩
  · intro window
    exact ⟨_, onload_eq window⟩

/-- The statement of C9 at the title "Local-first cache". -/
theorem C9_slug_is_valid_token_witness :
    pageTitleClass "Local-first cache" ≠ "" ∧
      (∀ c ∈ (pageTitleClass "Local-first cache").data,
        isAsciiWhitespace c = false ∧ c.isWhitespace = false ∧ c.isUpper = false ∧
          (c.isLower = true ∨ c = '-')) ∧
      ∀ classList : ClassList, ∃ classList',
        ClassList.add classList (pageTitleClass "Local-first cache") = Except.ok classList' :=
  C9_slug_is_valid_token.1 "Local-first cache" (by decide)

/-! ## The handler on nodes: lemmas -/

theorem forEachNode_navItemCallback (nodes : List Node) (page : Page) :
    forEachNode navItemCallback nodes page = Except.ok (markAll nodes page) := by
  induction nodes generalizing page with
  | nil => rfl
  | cons node rest ih =>
    unfold forEachNode markAll
    cases h : page.get? node with
    | none => simpa using ih page
    | some item =>
      simp only [navItemCallback_eq]
      exact ih _

theorem markAll_frame (nodes : List Node) (page : Page) :
    (markAll nodes page).title = page.title ∧
      (markAll nodes page).console = page.console ∧
      (markAll nodes page).bodyPosition = page.bodyPosition := by
  induction nodes generalizing page with
  | nil => exact ⟨rfl, rfl, rfl⟩
  | cons node rest ih =>
    unfold markAll
    cases h : page.get? node with
    | none => simpa using ih page
    | some item =>
      obtain ⟨h₁, h₂, h₃⟩ := ih (page.set node (marked item))
      cases node <;> exact ⟨h₁, h₂, h₃⟩

theorem markAll_body (nodes : List Node) (page : Page) :
    (markAll nodes page).body = markedIf (decide (Node.body ∈ nodes)) page.body := by
  induction nodes generalizing page with
  | nil => rfl
  | cons node rest ih =>
    unfold markAll
    cases node with
    | body =>
      simp only [Page.get?, ih, Page.set, List.mem_cons, true_or, decide_True]
      by_cases hr : Node.body ∈ rest
      · simp [markedIf, hr, marked_idem]
      · simp [markedIf, hr]
    | other i =>
      cases h : page.get? (Node.other i) with
      | none => simp [ih, markedIf]
      | some item => simp [ih, markedIf, Page.set]

theorem markAll_others (nodes : List Node) (page : Page) (j : Nat) :
    (markAll nodes page).others[j]?
      = (page.others[j]?).map (markedIf (decide (Node.other j ∈ nodes))) := by
  induction nodes generalizing page with
  | nil =>
    show page.others[j]? = _
    cases page.others[j]? <;> simp [markedIf]
  | cons node rest ih =>
    unfold markAll
    cases node with
    | body =>
      simp only [Page.get?, ih, Page.set]
      simp
    | other i =>
      cases h : page.get? (Node.other i) with
      | none =>
        simp only [Page.get?] at h
        simp only [ih]
        by_cases hij : i = j
        · subst hij
          simp [h]
        · have : Node.other j ≠ Node.other i := fun hh => hij (by cases hh; rfl)
          simp [this]
      | some item =>
        simp only [Page.get?] at h
        simp only [ih, Page.set]
        by_cases hij : i = j
        · subst hij
          have hlt : i < page.others.length := by
            by_contra hge
            rw [List.getElem?_eq_none (by omega)] at h
            cases h
          rw [List.getElem?_set, if_pos rfl, if_pos hlt, h]
          by_cases hr : Node.other i ∈ rest
          · simp [markedIf, hr, marked_idem]
          · simp [markedIf, hr]
        · have : Node.other j ≠ Node.other i := fun hh => hij (by cases hh; rfl)
          rw [List.getElem?_set_ne hij]
          simp [this]

theorem body_mem_querySelectorAll (page : Page) :
    Node.body ∈ page.querySelectorAll ↔ matchesMenuLink page.body = true := by
  unfold Page.querySelectorAll
  by_cases h : matchesMenuLink page.body = true <;> simp [h]

theorem other_mem_querySelectorAll (page : Page) (i : Nat) :
    Node.other i ∈ page.querySelectorAll ↔
      ∃ element, page.others[i]? = some element ∧ matchesMenuLink element = true := by
  unfold Page.querySelectorAll
  simp only [List.mem_append, List.mem_map, List.mem_filter, List.mem_range, Node.other.injEq,
    exists_eq_right, decide_eq_true_eq]
  constructor
  · rintro ((⟨⟨_, h⟩, _⟩ | h) | ⟨⟨_, h⟩, _⟩)
    · cases hi : page.others[i]? with
      | none => simp [hi] at h
      | some element => exact ⟨element, rfl, by simpa [hi] using h⟩
    · split at h <;> simp at h
    · cases hi : page.others[i]? with
      | none => simp [hi] at h
      | some element => exact ⟨element, rfl, by simpa [hi] using h⟩
  · rintro ⟨element, hi, hm⟩
    have hlt : i < page.others.length := by
      by_contra hge
      rw [List.getElem?_eq_none (by omega)] at hi
      cases hi
    by_cases hp : i < page.bodyPosition
    · exact Or.inl (Or.inl ⟨⟨hlt, by simp [hi, hm]⟩, hp⟩)
    · exact Or.inr ⟨⟨hlt, by simp [hi, hm]⟩, by omega⟩

theorem Page.eq_of_fields (p q : Page) (h₁ : p.title = q.title) (h₂ : p.body = q.body)
    (h₃ : p.others = q.others) (h₄ : p.bodyPosition = q.bodyPosition)
    (h₅ : p.console = q.console) : p = q := by
  cases p
  cases q
  simp_all

theorem markAll_querySelectorAll (page tagged : Page) (h : tagged.others = page.others) :
    markAll page.querySelectorAll tagged =
      { title := tagged.title,
        body := markedIf (matchesMenuLink page.body) tagged.body,
        others := page.others.map fun element => markedIf (matchesMenuLink element) element,
        bodyPosition := tagged.bodyPosition,
        console := tagged.console } := by
  obtain ⟨h₁, h₂, h₃⟩ := markAll_frame page.querySelectorAll tagged
  refine Page.eq_of_fields _ _ h₁ ?_ ?_ h₃ h₂
  · rw [markAll_body]
    congr 1
    by_cases hm : matchesMenuLink page.body = true
    · simp [hm, body_mem_querySelectorAll]
    · simp [hm, body_mem_querySelectorAll]
  · apply List.ext_getElem?
    intro j
    rw [markAll_others, h, List.getElem?_map]
    cases hj : page.others[j]? with
    | none => rfl
    | some element =>
      simp only [Option.map_some']
      congr 2
      by_cases hm : matchesMenuLink element = true
      · simp [hm, other_mem_querySelectorAll, hj]
      · simp [hm, other_mem_querySelectorAll, hj]

theorem Page.onload_nodes_eq (page : Page) :
    page.onload = Except.ok
      { title := page.title,
        body := markedIf (matchesMenuLink page.body)
          { page.body with classList := taggedBody page.title page.body.classList },
        others := page.others.map fun element => markedIf (matchesMenuLink element) element,
        bodyPosition := page.bodyPosition,
        console := loggedConsole page.title page.console } := by
  unfold Page.onload taggedBody loggedConsole
  by_cases h : page.title ∈ specialTitles
  · obtain ⟨h₁, h₂⟩ := pageTitleClass_valid _ h
    simp only [if_pos h]
    rw [if_pos (by simpa [specialTitles] using h)]
    simp only [classList_add_special_page, classList_add_ok _ _ h₁ h₂]
    show forEachNode navItemCallback page.querySelectorAll _ = _
    rw [forEachNode_navItemCallback]
    exact congrArg Except.ok (markAll_querySelectorAll page _ rfl)
  · simp only [if_neg h]
    rw [if_neg (by simpa [specialTitles] using h)]
    show forEachNode navItemCallback page.querySelectorAll _ = _
    rw [forEachNode_navItemCallback]
    exact congrArg Except.ok (markAll_querySelectorAll page _ rfl)


theorem matchesMenuLink_marked (element : Element) :
    matchesMenuLink (marked element) = matchesMenuLink element := by
  unfold matchesMenuLink
  rw [marked_classList]
  split
  · simp only [mem_orderedSetAppend]
    have : ("menu__link" : String) ≠ "new" := by decide
    simp [this]
  · rfl

theorem filter_matchesMenuLink_scanned (others : List Element) :
    (others.map fun element => markedIf (matchesMenuLink element) element).filter matchesMenuLink
      = (others.filter matchesMenuLink).map marked := by
  induction others with
  | nil => rfl
  | cons element rest ih =>
    rw [List.map_cons]
    by_cases hm : matchesMenuLink element = true
    · have h₁ : markedIf (matchesMenuLink element) element = marked element := by
        simp [markedIf, hm]
      have h₂ : matchesMenuLink (marked element) = true := by
        rw [matchesMenuLink_marked, hm]
      rw [h₁, List.filter_cons_of_pos h₂, List.filter_cons_of_pos hm, List.map_cons, ih]
    · have h₁ : markedIf (matchesMenuLink element) element = element := by
        simp [markedIf, hm]
      rw [h₁, List.filter_cons_of_neg hm, List.filter_cons_of_neg hm, ih]

/-! ## Independence of the two scans -/

/-- C10 (as stated, refuted): when the body itself carries the class
"menu__link", line 2 selects it and the scan of lines 23 to 47 treats it as a
navigation item. Under the title "FAQ" a body with text "Reply" and class list
"menu__link" ends with "new" added by the navigation scan, while a body with
the same class list and the text "Other Page" is left as it was: the body
class list is changed by the scan and is not determined by the title and the
initial class list alone. Under the title "Quickstart" the same navigation
item ends with a different class list than under "FAQ". -/
theorem C10_scan_reaches_body :
    ∃ reply otherPage quick,
      Page.onload ⟨"FAQ", ⟨"Reply", ["menu__link"]⟩, [], 0, []⟩ = Except.ok reply ∧
      Page.onload ⟨"FAQ", ⟨"Other Page", ["menu__link"]⟩, [], 0, []⟩ = Except.ok otherPage ∧
      Page.onload ⟨"Quickstart", ⟨"Reply", ["menu__link"]⟩, [], 0, []⟩ = Except.ok quick ∧
      Page.querySelectorAll ⟨"FAQ", ⟨"Reply", ["menu__link"]⟩, [], 0, []⟩ = [Node.body] ∧
      "FAQ" ∉ specialTitles ∧
      reply.body.classList = ["menu__link", "new"] ∧
      reply.body.classList ≠ ["menu__link"] ∧
      otherPage.body.classList = ["menu__link"] ∧
      reply.body.classList ≠ otherPage.body.classList ∧
      quick.body.classList = ["menu__link", "special-page", "quickstart", "new"] ∧
      quick.body.classList ≠ reply.body.classList :=
  ⟨_, _, _, Page.onload_nodes_eq _, Page.onload_nodes_eq _, Page.onload_nodes_eq _, by decide, by decide,
    by decide, by decide, by decide, by decide, by decide, by decide⟩

/-- C10 (amended): provided the body is not itself one of the navigation items
(its class list does not hold "menu__link", so the selector does not return
it), the two scans are independent. The handler returns; the body class list
it leaves is the same whatever the body text, the other elements, the position
of the body among them and the console are; the body is as with no other
element at all, and the navigation scan alone leaves the body unchanged; the
other elements, the navigation items among them, end the same whatever the
title, the body and the console are, namely as the scan alone leaves them, and
the selected ones are those the scan of the selected elements returns. -/
theorem C10_scans_independent_off_body (title : String) (body : Element)
    (others : List Element) (bodyPosition : Nat) (console : List (List String))
    (hbody : "menu__link" ∉ body.classList) :
    ∃ page', Page.onload ⟨title, body, others, bodyPosition, console⟩ = Except.ok page' ∧
      (∀ (innerText₂ : String) (others₂ : List Element) (bodyPosition₂ : Nat)
          (console₂ : List (List String)),
        ∃ page₂, Page.onload ⟨title, ⟨innerText₂, body.classList⟩, others₂, bodyPosition₂,
            console₂⟩ = Except.ok page₂ ∧
          page₂.body.classList = page'.body.classList) ∧
      (∃ page₀, Page.onload ⟨title, body, [], 0, console⟩ = Except.ok page₀ ∧
        page'.body = page₀.body) ∧
      (∃ scanned,
        forEachNode navItemCallback
            (Page.querySelectorAll ⟨title, body, others, bodyPosition, console⟩)
            ⟨title, body, others, bodyPosition, console⟩ = Except.ok scanned ∧
          scanned.body = body ∧ scanned.others = page'.others) ∧
      (∀ (title₂ : String) (body₂ : Element) (bodyPosition₂ : Nat)
          (console₂ : List (List String)),
        ∃ page₂, Page.onload ⟨title₂, body₂, others, bodyPosition₂, console₂⟩
            = Except.ok page₂ ∧
          page₂.others = page'.others) ∧
      forEach navItemCallback (others.filter matchesMenuLink)
        = Except.ok (page'.others.filter matchesMenuLink) := by
  have hm : matchesMenuLink body = false := by
    simpa [matchesMenuLink] using hbody
  refine ⟨_, Page.onload_nodes_eq _, ?_, ?_, ?_, ?_, ?_⟩
  · intro innerText₂ others₂ bodyPosition₂ console₂
    refine ⟨_, Page.onload_nodes_eq _, ?_⟩
    have hm₂ : matchesMenuLink ⟨innerText₂, body.classList⟩ = false := by
      simpa [matchesMenuLink] using hbody
    simp only [hm, hm₂, markedIf]
    rfl
  · refine ⟨_, Page.onload_nodes_eq _, ?_⟩
    simp only [hm, markedIf]
  · refine ⟨_, forEachNode_navItemCallback _ _, ?_, ?_⟩
    · rw [markAll_querySelectorAll _ _ rfl]
      simp only [hm, markedIf]
      rfl
    · rw [markAll_querySelectorAll _ _ rfl]
  · intro title₂ body₂ bodyPosition₂ console₂
    exact ⟨_, Page.onload_nodes_eq _, rfl⟩
  · rw [forEach_navItemCallback]
    exact congrArg Except.ok (filter_matchesMenuLink_scanned others).symm

/-- The amended statement of C10 on the title "Quickstart", a body without the
class "menu__link" and two other elements, one of them a navigation item. -/
theorem C10_scans_independent_off_body_witness :
    "menu__link" ∉ (⟨"page", ["docs"]⟩ : Element).classList ∧
    ∃ page', Page.onload ⟨"Quickstart", ⟨"page", ["docs"]⟩,
        [⟨"Reply", ["menu__link"]⟩, ⟨"Reply", []⟩], 1, []⟩ = Except.ok page' ∧
      (∀ (innerText₂ : String) (others₂ : List Element) (bodyPosition₂ : Nat)
          (console₂ : List (List String)),
        ∃ page₂, Page.onload ⟨"Quickstart", ⟨innerText₂, ["docs"]⟩, others₂, bodyPosition₂,
            console₂⟩ = Except.ok page₂ ∧
          page₂.body.classList = page'.body.classList) ∧
      (∃ page₀, Page.onload ⟨"Quickstart", ⟨"page", ["docs"]⟩, [], 0, []⟩ = Except.ok page₀ ∧
        page'.body = page₀.body) ∧
      (∃ scanned,
        forEachNode navItemCallback
            (Page.querySelectorAll ⟨"Quickstart", ⟨"page", ["docs"]⟩,
              [⟨"Reply", ["menu__link"]⟩, ⟨"Reply", []⟩], 1, []⟩)
            ⟨"Quickstart", ⟨"page", ["docs"]⟩,
              [⟨"Reply", ["menu__link"]⟩, ⟨"Reply", []⟩], 1, []⟩ = Except.ok scanned ∧
          scanned.body = ⟨"page", ["docs"]⟩ ∧ scanned.others = page'.others) ∧
      (∀ (title₂ : String) (body₂ : Element) (bodyPosition₂ : Nat)
          (console₂ : List (List String)),
        ∃ page₂, Page.onload ⟨title₂, body₂, [⟨"Reply", ["menu__link"]⟩, ⟨"Reply", []⟩],
            bodyPosition₂, console₂⟩ = Except.ok page₂ ∧
          page₂.others = page'.others) ∧
      forEach navItemCallback
          (([⟨"Reply", ["menu__link"]⟩, ⟨"Reply", []⟩] : List Element).filter matchesMenuLink)
        = Except.ok (page'.others.filter matchesMenuLink) :=
  ⟨by decide,
    C10_scans_independent_off_body "Quickstart" ⟨"page", ["docs"]⟩
      [⟨"Reply", ["menu__link"]⟩, ⟨"Reply", []⟩] 1 [] (by decide)⟩

end MyJs
